import Mathlib

/-!
Shallow embedding of the client-side submission/decryption orchestrator of
the encrypted-survey dapp (the `useEncryptedSurvey` hook).

External collaborators (Ledger Client, Encryption Service, Authorization
Signature Cache, Decryption Service) are modelled as environment records
carrying the outcome each external call would produce; the operations are
big-step functions from orchestrator state (plus environment) to a final
state together with a trace of externally observable events (ledger reads,
ledger writes, encryption calls, signature-cache calls, decryption calls,
and atomic question-state replacements).

The mutable refs (`isRefreshingRef` etc.) mirror the corresponding state
fields in the source (they are always set together), so the model keeps a
single boolean per lock.  Status messages keep the source's wording with
the emoji prefixes omitted (the source file's encoding mangles them).
-/

namespace EncryptedSurvey

/-- A cleartext value returned by the Decryption Service
(`string | bigint | boolean` in the source). -/
inductive ClearValue where
  | int (n : Int)
  | str (s : String)
  | bool (b : Bool)
deriving DecidableEq, Repr

/-- `QuestionData` from the source: ordinal, display text, optional
ciphertext handle (`undefined` ↦ `none`) and optional decrypted value. -/
structure QuestionData where
  questionId : Nat
  question : String
  handle : Option String
  decrypted : Option ClearValue
deriving DecidableEq, Repr

/-- The fixed three-question array `questions` (the source always builds
literal three-element arrays and indexes `[0]`, `[1]`, `[2]`). -/
structure Questions where
  q0 : QuestionData
  q1 : QuestionData
  q2 : QuestionData
deriving DecidableEq, Repr

/-- JavaScript array indexing `questions[i]`: `undefined` (`none`) out of
range. -/
def Questions.get? (qs : Questions) : Nat → Option QuestionData
  | 0 => some qs.q0
  | 1 => some qs.q1
  | 2 => some qs.q2
  | _ => none

/-- `questions.every p`. -/
def Questions.every (qs : Questions) (p : QuestionData → Bool) : Bool :=
  p qs.q0 && p qs.q1 && p qs.q2

/-- `questions.map f` (the source's `prev.map` over the three-element
array). -/
def Questions.map (qs : Questions) (f : QuestionData → QuestionData) : Questions :=
  ⟨f qs.q0, f qs.q1, f qs.q2⟩

/-- `ClearTalliesType` from the source. -/
structure ClearTalliesType where
  idNumber : ClearValue
  bankPassword : ClearValue
  age : ClearValue
deriving DecidableEq, Repr

/-- The orchestrator's mutable state: the question array, the derived
summary, the three operation locks and the rolling status message. -/
structure SurveyState where
  questions : Questions
  clearTallies : Option ClearTalliesType
  isRefreshing : Bool
  isDecrypting : Bool
  isSubmitting : Bool
  message : String
deriving DecidableEq, Repr

/-- The initial `questions` array (source lines 76–80): every handle and
every decrypted value is `undefined`. -/
def initialQuestions : Questions :=
  ⟨⟨0, "What is your ID number?", none, none⟩,
   ⟨1, "What is your bank card password?", none, none⟩,
   ⟨2, "What is your age?", none, none⟩⟩

/-- Orchestrator state at construction. -/
def initialState : SurveyState :=
  { questions := initialQuestions
    clearTallies := none
    isRefreshing := false
    isDecrypting := false
    isSubmitting := false
    message := "" }

/-- JavaScript truthiness of a `string | undefined` handle, as used by
`questions.every(q => q.handle)`: `undefined` and the empty string are
falsy, every other string (including the all-zero sentinel) is truthy. -/
def handleTruthy : Option String → Bool
  | none => false
  | some s => !(s == "")

/-- The all-zero 32-byte handle the ledger reports for an unanswered
question. -/
def zeroHandle : String :=
  "0x0000000000000000000000000000000000000000000000000000000000000000"

/-- Presence of the external dependencies the operations guard on
(`survey.address`, `instance`, `ethersSigner`, `ethersReadonlyProvider`). -/
structure Ctx where
  hasAddress : Bool
  hasInstance : Bool
  hasSigner : Bool
  hasProvider : Bool
deriving DecidableEq, Repr

/-- One evaluation of the three comparisons inside `isStale()`:
`thisAddress !== surveyRef.current?.address`, `!sameChain.current(...)`,
`!sameSigner.current(...)`. -/
structure StaleCheck where
  addressMatch : Bool
  chainMatch : Bool
  signerMatch : Bool
deriving DecidableEq, Repr

/-- `isStale()` from the source: stale iff any of the three dimensions
changed. -/
def StaleCheck.isStale (c : StaleCheck) : Bool :=
  !c.addressMatch || !c.chainMatch || !c.signerMatch

/-- The runtime representation of a value handed back by the encryption
service: a string, a `Uint8Array`, a plain `Array` of numbers, or anything
else (`other`, tagged with its `typeof`/constructor description). -/
inductive JSVal where
  | str (s : String)
  | bytes (bs : List Nat)
  | arr (bs : List Nat)
  | other (tag : String)
deriving DecidableEq, Repr

/-- `b.toString(16).padStart(2, '0')` for one byte. -/
def byteHex (b : Nat) : String :=
  let s := (Nat.toDigits 16 b).asString
  if s.length < 2 then "0" ++ s else s

/-- `'0x' + Array.from(h).map(b => b.toString(16).padStart(2,'0')).join('')`. -/
def bytesToHex (bs : List Nat) : String :=
  "0x" ++ String.join (bs.map byteHex)

/-- Handle normalization (source lines 393–415): a string passes through
verbatim, a `Uint8Array` or a plain array is hex-encoded, anything else
throws `Invalid handle format`. -/
def normalizeHandle : JSVal → Except String String
  | .str s => .ok s
  | .bytes bs => .ok (bytesToHex bs)
  | .arr bs => .ok (bytesToHex bs)
  | .other tag => .error ("Invalid handle format: " ++ tag)

/-- Proof normalization (source lines 421–429): only a `Uint8Array` is
hex-encoded; every other representation is passed through unchanged
("InputProof is already in correct format"). -/
def normalizeProof : JSVal → JSVal
  | .bytes bs => .str (bytesToHex bs)
  | v => v

/-- Externally observable events of one operation run. -/
inductive Event where
  | ledgerRead
  | ledgerWrite (questionId : Nat) (handle : String) (proof : JSVal)
  | encryptCall
  | sigCall
  | decryptCall
  | questionsSet
deriving DecidableEq, Repr

/-- Outcome of the Ledger Client's authenticated read `getMyAnswers()`:
either an error thrown by the call, or the three handles
`(idNumber, bankPassword, age)`. -/
structure RefreshEnv where
  getMyAnswers : Except String (String × String × String)

/-- `refreshTallies` (source lines 112–163).  Guarded only by its own lock
and the presence of address, read-only provider and signer; on success the
three handles are overwritten in one `setQuestions` call (spreads preserve
the `decrypted` fields); on error nothing is mutated; the lock is released
in `finally`. -/
def refreshTallies (ctx : Ctx) (env : RefreshEnv) (s : SurveyState) :
    SurveyState × List Event :=
  if s.isRefreshing then (s, [])
  else if !(ctx.hasAddress && ctx.hasProvider && ctx.hasSigner) then (s, [])
  else
    -- isRefreshingRef.current = true; setIsRefreshing(true); try { ... } finally { release }
    match env.getMyAnswers with
    | .error _ =>
        -- caught and logged; "Don't update state on error"
        ({ s with isRefreshing := false }, [.ledgerRead])
    | .ok (idNumber, bankPassword, age) =>
        ({ s with
            questions :=
              ⟨{ s.questions.q0 with handle := some idNumber },
               { s.questions.q1 with handle := some bankPassword },
               { s.questions.q2 with handle := some age }⟩
            isRefreshing := false },
         [.ledgerRead, .questionsSet])

/-- `canDecrypt` (source lines 183–188). -/
def canDecrypt (ctx : Ctx) (s : SurveyState) : Bool :=
  ctx.hasAddress && ctx.hasInstance && ctx.hasSigner &&
    !s.isRefreshing && !s.isDecrypting &&
    s.questions.every (fun q => handleTruthy q.handle)

/-- `canSubmit` (source lines 288–290). -/
def canSubmit (ctx : Ctx) (s : SurveyState) : Bool :=
  ctx.hasAddress && ctx.hasInstance && ctx.hasSigner &&
    !s.isRefreshing && !s.isSubmitting

/-- Result of the `encrypt()` finalize step:
`{ handles: [...], inputProof: ... }`. -/
structure EncOutput where
  handles : List JSVal
  inputProof : JSVal

/-- Outcomes that the external collaborators hand an in-flight `submit`:
the encryption finalize result, the staleness comparisons at the two
checkpoints, the transaction send/confirm result, and the environment of
the follow-up refresh. -/
structure SubmitEnv where
  encryptResult : Except String EncOutput
  staleAfterEncrypt : StaleCheck
  txResult : Except String Unit
  staleAfterTx : StaleCheck
  refreshEnv : RefreshEnv

/-- State, trace, and the pending exception (if any) of a `try` block. -/
structure RunOut where
  state : SurveyState
  trace : List Event
  err : Option String

/-- The per-dimension cancellation message of the post-encryption
staleness checkpoint (source lines 366–377). -/
def staleDimensionMessage (c : StaleCheck) : String :=
  if !c.addressMatch then "Transaction cancelled: contract address changed"
  else if !c.chainMatch then "Transaction cancelled: chain changed"
  else if !c.signerMatch then "Transaction cancelled: signer changed"
  else "Transaction cancelled: unknown reason"

/-- The `try` body of `submit`'s async `run` (source lines 321–473):
yield, encrypt, staleness checkpoint, normalize handle and proof, ledger
write with confirmation wait, second staleness checkpoint, follow-up
refresh. -/
def submitTry (ctx : Ctx) (env : SubmitEnv) (s : SurveyState)
    (questionId : Nat) (value : ℚ) (questionText : String) : RunOut :=
  -- await setTimeout(100) then setMessage('Encrypting answer ...')
  let s := { s with message :=
    ("Encrypting answer " ++ toString value ++ " (Question " ++
      toString (questionId + 1) ++ ": " ++ questionText ++ ")...") }
  if !ctx.hasInstance then
    { state := s, trace := [], err := some "FHEVM instance is not available" }
  else
    -- createEncryptedInput; input.add32(value); setMessage; await input.encrypt()
    let s := { s with message :=
      "Encrypting... (this may take a few seconds, please wait)" }
    match env.encryptResult with
    | .error e => { state := s, trace := [.encryptCall], err := some e }
    | .ok enc =>
      if env.staleAfterEncrypt.isStale then
        { state := { s with message := staleDimensionMessage env.staleAfterEncrypt }
          trace := [.encryptCall], err := none }
      else
        let s := { s with message := "Submitting encrypted answer to contract..." }
        match enc.handles.head? with
        | none => { state := s, trace := [.encryptCall],
                    err := some "Encrypted handle is undefined" }
        | some h =>
          match normalizeHandle h with
          | .error e => { state := s, trace := [.encryptCall], err := some e }
          | .ok handleBytes32 =>
            let inputProofBytes := normalizeProof enc.inputProof
            -- tx = await contract.submitAnswer(...); receipt = await tx.wait()
            match env.txResult with
            | .error e =>
                { state := { s with message :=
                    "Waiting for transaction confirmation..." }
                  trace := [.encryptCall,
                            .ledgerWrite questionId handleBytes32 inputProofBytes]
                  err := some e }
            | .ok _ =>
              let s := { s with message := "Waiting for transaction confirmation..." }
              if env.staleAfterTx.isStale then
                { state := { s with message :=
                    "Transaction cancelled: chain or signer changed" }
                  trace := [.encryptCall,
                            .ledgerWrite questionId handleBytes32 inputProofBytes]
                  err := none }
              else
                let s := { s with message := "Submit successful! Refreshing ciphertext..." }
                -- await setTimeout(500); await refreshTallies()
                let (s2, tr2) := refreshTallies ctx env.refreshEnv s
                { state := { s2 with message :=
                    ("Question " ++ toString (questionId + 1) ++
                      " answer submitted, ciphertext updated!") }
                  trace := [.encryptCall,
                            .ledgerWrite questionId handleBytes32 inputProofBytes] ++ tr2
                  err := none }

/-- Result of one `submit` invocation.  `thrown` is `some` when an
exception escapes the call synchronously (before the async `run` starts);
`state` and `trace` are as of the moment the call returns. -/
structure SubmitResult where
  thrown : Option String
  state : SurveyState
  trace : List Event
deriving Repr

/-- `submit` (source lines 292–493): re-entrancy guard across the refresh
and submit locks, wallet-presence guard, uint32 range validation, then the
synchronous `questions[questionId].question` access (which throws for an
unknown ordinal), lock acquisition and the async `run` whose `catch` sets
an error message and attempts a best-effort refresh and whose `finally`
releases the lock. -/
def submit (ctx : Ctx) (env : SubmitEnv) (s : SurveyState)
    (questionId : Nat) (value : ℚ) : SubmitResult :=
  if s.isRefreshing || s.isSubmitting then
    -- console.log only
    { thrown := none, state := s, trace := [] }
  else if !(ctx.hasAddress && ctx.hasInstance && ctx.hasSigner) then
    { thrown := none, state := { s with message := "Please connect wallet first" }
      trace := [] }
  else if value.den ≠ 1 ∨ value < 0 ∨ value > 4294967295 then
    { thrown := none
      state := { s with message := "Please enter a valid number (0-4294967295)" }
      trace := [] }
  else
    match s.questions.get? questionId with
    | none =>
        -- `questions[questionId].question` reads `.question` of `undefined`
        { thrown := some "TypeError: cannot read property of undefined"
          state := s, trace := [] }
    | some q =>
      let s := { s with
        isSubmitting := true
        message := ("Starting to submit question " ++ toString (questionId + 1) ++
          ": " ++ q.question ++ "...") }
      let out := submitTry ctx env s questionId value q.question
      let res : SurveyState × List Event :=
        match out.err with
        | none => (out.state, out.trace)
        | some e =>
          -- catch: surface the message, then best-effort refresh (its own
          -- failure is swallowed)
          let sE := { out.state with message := "Error: " ++ e }
          let (sR, trR) := refreshTallies ctx env.refreshEnv sE
          (sR, out.trace ++ trR)
      { thrown := none
        state := { res.1 with isSubmitting := false }
        trace := res.2 }

/-- Outcomes the external collaborators hand an in-flight `decryptTallies`:
the Authorization Signature Cache result (`ok true` = signature obtained,
`ok false` = `null`), the staleness comparisons at the two checkpoints and
the Decryption Service's handle-keyed response. -/
structure DecryptEnv where
  sigResult : Except String Bool
  staleAfterSig : StaleCheck
  userDecrypt : Except String (String → ClearValue)
  staleAfterDecrypt : StaleCheck

/-- The `try` body of `decryptTallies`' async `run` (source lines
203–284). -/
def decryptTry (ctx : Ctx) (env : DecryptEnv) (s : SurveyState) : RunOut :=
  let s := { s with message := "Loading decryption signature..." }
  if !ctx.hasInstance then
    { state := s, trace := [], err := some "FHEVM instance is not available" }
  else
    match env.sigResult with
    | .error e => { state := s, trace := [.sigCall], err := some e }
    | .ok false => { state := s, trace := [.sigCall],
                     err := some "Unable to build FHEVM decryption signature" }
    | .ok true =>
      if env.staleAfterSig.isStale then
        { state := { s with message := "Decryption cancelled: chain or signer changed" }
          trace := [.sigCall], err := none }
      else
        let s := { s with message := "Decrypting survey results..." }
        match env.userDecrypt with
        | .error e => { state := s, trace := [.sigCall, .decryptCall], err := some e }
        | .ok res =>
          if env.staleAfterDecrypt.isStale then
            { state := { s with message :=
                "Decryption cancelled: chain or signer changed" }
              trace := [.sigCall, .decryptCall], err := none }
          else
            -- setQuestions(prev => prev.map(q => ({...q, decrypted: res[q.handle!]})))
            let qs := s.questions.map
              (fun q => { q with decrypted := some (res (q.handle.getD "")) })
            let tallies : ClearTalliesType :=
              { idNumber := res (s.questions.q0.handle.getD "")
                bankPassword := res (s.questions.q1.handle.getD "")
                age := res (s.questions.q2.handle.getD "") }
            { state := { s with
                questions := qs
                clearTallies := some tallies
                message := "Decryption successful!" }
              trace := [.sigCall, .decryptCall, .questionsSet], err := none }

/-- `decryptTallies` (source lines 190–286): re-entrancy guard across the
refresh and decrypt locks, presence guard, all-handles-truthy guard, then
the async `run`; the `catch` surfaces the message, the `finally` releases
the lock. -/
def decryptTallies (ctx : Ctx) (env : DecryptEnv) (s : SurveyState) :
    SurveyState × List Event :=
  if s.isRefreshing || s.isDecrypting then (s, [])
  else if !(ctx.hasAddress && ctx.hasInstance && ctx.hasSigner) then (s, [])
  else if !(s.questions.every (fun q => handleTruthy q.handle)) then (s, [])
  else
    let s1 := { s with isDecrypting := true, message := "Start decrypt tallies" }
    let out := decryptTry ctx env s1
    let s2 :=
      match out.err with
      | none => out.state
      | some e => { out.state with message := "Decryption error: " ++ e }
    ({ s2 with isDecrypting := false }, out.trace)

/-! ### Concrete fixtures -/

/-- All four external dependencies present. -/
def ctxAll : Ctx := ⟨true, true, true, true⟩

/-- A ledger read reporting the all-zero sentinel for all three questions
(a fresh account after its first refresh). -/
def zeroRefreshEnv : RefreshEnv := ⟨.ok (zeroHandle, zeroHandle, zeroHandle)⟩

/-- A submit run in which the contract address changes while `encrypt()`
is running; everything else would succeed. -/
def envAddrChanged : SubmitEnv :=
  { encryptResult := .ok ⟨[.str "0xab"], .str "0xcd"⟩
    staleAfterEncrypt := ⟨false, true, true⟩
    txResult := .ok ()
    staleAfterTx := ⟨true, true, true⟩
    refreshEnv := zeroRefreshEnv }

/-- A submit run in which nothing changes and every external call
succeeds. -/
def envAllOk : SubmitEnv :=
  { encryptResult := .ok ⟨[.str "0xab"], .str "0xcd"⟩
    staleAfterEncrypt := ⟨true, true, true⟩
    txResult := .ok ()
    staleAfterTx := ⟨true, true, true⟩
    refreshEnv := zeroRefreshEnv }

/-- A decrypt run whose Authorization Signature Cache call throws. -/
def envSigThrows : DecryptEnv :=
  ⟨.error "sig failure", ⟨true, true, true⟩, .error "unused", ⟨true, true, true⟩⟩

/-- The state of a fresh account right after its first successful refresh:
every handle is the truthy all-zero sentinel string. -/
def zeroHandleState : SurveyState :=
  (refreshTallies ctxAll zeroRefreshEnv initialState).1

/-! ### Claim theorems -/

/-- C4 (code bug witness): question 0 holds a cleartext decrypted earlier
against handle `0xaa`; a successful refresh reports the different handle
`0xbb`, yet the next read of state still shows `decrypted = 42` next to
the new handle — the spread `{ ...prev[0], handle: idNumber }` preserves
the stale cleartext and nothing ever clears it. -/
theorem refresh_preserves_stale_decrypted :
    (refreshTallies ctxAll ⟨.ok ("0xbb", zeroHandle, zeroHandle)⟩
      { initialState with questions :=
          { initialQuestions with q0 := { initialQuestions.q0 with
              handle := some "0xaa", decrypted := some (.int 42) } } }).1.questions.q0
      = { questionId := 0, question := "What is your ID number?",
          handle := some "0xbb", decrypted := some (.int 42) } := by
  decide

/-- C2 (counterexample): with a submit in flight (`isSubmitting = true`),
`refreshTallies` still proceeds — it performs the ledger read and rewrites
the question state — because its guard checks only `isRefreshingRef`. -/
theorem refresh_runs_while_submit_in_flight :
    ({ initialState with isSubmitting := true } : SurveyState).isSubmitting = true ∧
    (refreshTallies ctxAll zeroRefreshEnv
        { initialState with isSubmitting := true }).2
      = [Event.ledgerRead, Event.questionsSet] := by
  exact ⟨rfl, rfl⟩

/-- C2 (amended): submit never begins while a refresh or submit is in
flight, and decrypt never begins while a refresh or decrypt is in flight;
but refresh is guarded only by its own lock, so its behaviour (trace and
resulting question state) is independent of the submit and decrypt
locks. -/
theorem cross_kind_exclusion_amended
    (ctx : Ctx) (envS : SubmitEnv) (envD : DecryptEnv) (envR : RefreshEnv)
    (s : SurveyState) (questionId : Nat) (value : ℚ) (b c : Bool) :
    (s.isRefreshing = true →
      submit ctx envS s questionId value = ⟨none, s, []⟩) ∧
    (s.isRefreshing = true → decryptTallies ctx envD s = (s, [])) ∧
    ((refreshTallies ctx envR { s with isSubmitting := b, isDecrypting := c }).2
        = (refreshTallies ctx envR s).2 ∧
      (refreshTallies ctx envR
          { s with isSubmitting := b, isDecrypting := c }).1.questions
        = (refreshTallies ctx envR s).1.questions) := by
  obtain ⟨qs, ct, r, d, sub, m⟩ := s
  refine ⟨fun hR => ?_, fun hR => ?_, ?_⟩
  · simp only at hR
    simp [submit, hR]
  · simp only at hR
    simp [decryptTallies, hR]
  · obtain ⟨res⟩ := envR
    unfold refreshTallies
    cases r <;> rcases res with e | ⟨h0, h1, h2⟩ <;>
      by_cases hc : (ctx.hasAddress && ctx.hasProvider && ctx.hasSigner) = true <;>
        simp [hc]

/-- C2 (witness for the amended theorem). -/
theorem cross_kind_exclusion_amended_witness :
    submit ctxAll envAllOk { initialState with isRefreshing := true } 0 1
      = ⟨none, { initialState with isRefreshing := true }, []⟩ ∧
    decryptTallies ctxAll envSigThrows { initialState with isRefreshing := true }
      = ({ initialState with isRefreshing := true }, []) ∧
    (refreshTallies ctxAll zeroRefreshEnv
        { initialState with isSubmitting := true, isDecrypting := true }).2
      = (refreshTallies ctxAll zeroRefreshEnv initialState).2 := by
  refine ⟨?_, ?_, ?_⟩
  · exact (cross_kind_exclusion_amended ctxAll envAllOk envSigThrows zeroRefreshEnv
      { initialState with isRefreshing := true } 0 1 true true).1 rfl
  · exact (cross_kind_exclusion_amended ctxAll envAllOk envSigThrows zeroRefreshEnv
      { initialState with isRefreshing := true } 0 1 true true).2.1 rfl
  · exact ((cross_kind_exclusion_amended ctxAll envAllOk envSigThrows zeroRefreshEnv
      initialState 0 1 true true).2.2).1

/-- C3 (counterexample): in the reachable state where a fresh account has
just refreshed, every handle is the all-zero unset sentinel, yet
`decryptTallies` is not a no-op — it calls the Authorization Signature
Cache (and would go on to the Decryption Service), because the guard
`questions.every(q => q.handle)` only tests JS truthiness and the zero
string is truthy. -/
theorem decrypt_calls_sig_cache_on_zero_handles :
    zeroHandleState.questions.q0.handle = some zeroHandle ∧
    zeroHandleState.questions.q1.handle = some zeroHandle ∧
    zeroHandleState.questions.q2.handle = some zeroHandle ∧
    (decryptTallies ctxAll envSigThrows zeroHandleState).2 = [Event.sigCall] := by
  exact ⟨rfl, rfl, rfl, rfl⟩

/-- C3 (amended): `decryptTallies` makes zero external calls and leaves the
state untouched whenever some tracked handle is not truthy — i.e. is
`undefined` (never refreshed) or the empty string; the all-zero sentinel
string reported by the ledger is truthy and does not block decryption. -/
theorem decrypt_noop_amended
    (ctx : Ctx) (env : DecryptEnv) (s : SurveyState)
    (h : s.questions.every (fun q => handleTruthy q.handle) = false) :
    decryptTallies ctx env s = (s, []) ∧
    handleTruthy (some zeroHandle) = true := by
  refine ⟨?_, rfl⟩
  unfold decryptTallies
  split
  · rfl
  · split
    · rfl
    · rw [h]
      rfl

/-- C3 (witness for the amended theorem): at construction no handle is
set, so decrypt is a no-op. -/
theorem decrypt_noop_amended_witness :
    decryptTallies ctxAll envSigThrows initialState = (initialState, []) ∧
    handleTruthy (some zeroHandle) = true :=
  decrypt_noop_amended ctxAll envSigThrows initialState rfl

/-- C8 (counterexample): the proof normalization does not map a plain
byte array to a hex encoding and does not reject it — it passes it through
unchanged; an entirely unrecognized representation is likewise passed
through rather than raising an error. -/
theorem proof_byte_array_passthrough :
    normalizeProof (JSVal.arr [18, 52]) = JSVal.arr [18, 52] ∧
    normalizeProof (JSVal.arr [18, 52]) ≠ JSVal.str (bytesToHex [18, 52]) ∧
    normalizeProof (JSVal.other "number") = JSVal.other "number" := by
  exact ⟨rfl, by decide, rfl⟩

/-- C8 (amended): the handle normalization is a deterministic function
that passes a string through verbatim, hex-encodes a byte buffer
(`Uint8Array`) or a plain byte array, and raises an error on every other
representation; the proof normalization hex-encodes only a byte buffer and
passes every other representation (string, plain array, or anything else)
through unchanged rather than rejecting it. -/
theorem normalization_amended :
    (∀ s, normalizeHandle (JSVal.str s) = .ok s) ∧
    (∀ bs, normalizeHandle (JSVal.bytes bs) = .ok (bytesToHex bs)) ∧
    (∀ bs, normalizeHandle (JSVal.arr bs) = .ok (bytesToHex bs)) ∧
    (∀ tag, normalizeHandle (JSVal.other tag)
      = .error ("Invalid handle format: " ++ tag)) ∧
    (∀ bs, normalizeProof (JSVal.bytes bs) = JSVal.str (bytesToHex bs)) ∧
    (∀ s, normalizeProof (JSVal.str s) = JSVal.str s) ∧
    (∀ bs, normalizeProof (JSVal.arr bs) = JSVal.arr bs) ∧
    (∀ tag, normalizeProof (JSVal.other tag) = JSVal.other tag) :=
  ⟨fun _ => rfl, fun _ => rfl, fun _ => rfl, fun _ => rfl,
   fun _ => rfl, fun _ => rfl, fun _ => rfl, fun _ => rfl⟩

/-- Helper: the encryption-service call happens on every path of
`submitTry` once the instance is present (it is made before any branch on
its outcome). -/
theorem submitTry_encryptCall_mem (ctx : Ctx) (env : SubmitEnv) (s : SurveyState)
    (questionId : Nat) (value : ℚ) (text : String) (hI : ctx.hasInstance = true) :
    Event.encryptCall ∈ (submitTry ctx env s questionId value text).trace := by
  unfold submitTry
  rw [hI]
  simp only [Bool.not_true]
  rw [if_neg (by simp)]
  rcases hE : env.encryptResult with e | enc <;> simp only [hE]
  · simp
  · split
    · simp
    · rcases hH : enc.handles.head? with _ | h <;> simp only [hH]
      · simp
      · rcases hN : normalizeHandle h with e2 | hb <;> simp only [hN]
        · simp
        · rcases hT : env.txResult with e3 | u <;> simp only [hT]
          · simp
          · split
            · simp
            · simp

/-- Helper: when the staleness check reports stale, the per-dimension
message names the dimension that changed; the "unknown reason" fallback is
unreachable. -/
theorem staleDimensionMessage_names_dimension (c : StaleCheck)
    (h : c.isStale = true) :
    staleDimensionMessage c = "Transaction cancelled: contract address changed" ∨
    staleDimensionMessage c = "Transaction cancelled: chain changed" ∨
    staleDimensionMessage c = "Transaction cancelled: signer changed" := by
  obtain ⟨a, b, g⟩ := c
  cases a <;> cases b <;> cases g <;>
    simp_all [StaleCheck.isStale, staleDimensionMessage]

/-- C1: if the session identity (chain, signer) or the contract address
changes between the completion of `encrypt()` and the ledger submission,
the staleness checkpoint aborts the submit: no ledger write appears in the
trace, the question state is identical to before the call, no exception
escapes, and the status message names exactly the dimension that changed
(address / chain / signer — the "unknown reason" branch is unreachable). -/
theorem submit_stale_abort_after_encrypt
    (ctx : Ctx) (env : SubmitEnv) (s : SurveyState) (questionId : Nat) (value : ℚ)
    (q : QuestionData) (enc : EncOutput)
    (hR : s.isRefreshing = false) (hS : s.isSubmitting = false)
    (hP : (ctx.hasAddress && ctx.hasInstance && ctx.hasSigner) = true)
    (hv : ¬(value.den ≠ 1 ∨ value < 0 ∨ value > 4294967295))
    (hq : s.questions.get? questionId = some q)
    (hE : env.encryptResult = .ok enc)
    (hStale : env.staleAfterEncrypt.isStale = true) :
    (submit ctx env s questionId value).trace = [Event.encryptCall] ∧
    (∀ i h p, Event.ledgerWrite i h p ∉ (submit ctx env s questionId value).trace) ∧
    (submit ctx env s questionId value).state.questions = s.questions ∧
    (submit ctx env s questionId value).thrown = none ∧
    (submit ctx env s questionId value).state.message
      = staleDimensionMessage env.staleAfterEncrypt ∧
    ((submit ctx env s questionId value).state.message
        = "Transaction cancelled: contract address changed" ∨
      (submit ctx env s questionId value).state.message
        = "Transaction cancelled: chain changed" ∨
      (submit ctx env s questionId value).state.message
        = "Transaction cancelled: signer changed") := by
  have key : submit ctx env s questionId value =
      { thrown := none
        state := { s with isSubmitting := false,
                          message := staleDimensionMessage env.staleAfterEncrypt }
        trace := [Event.encryptCall] } := by
    obtain ⟨⟨hA, hI⟩, hG⟩ : (ctx.hasAddress = true ∧ ctx.hasInstance = true) ∧
        ctx.hasSigner = true := by simpa [Bool.and_eq_true] using hP
    obtain ⟨qs, ct, r, d, sub, m⟩ := s
    dsimp only at hR hS hq
    subst hR hS
    unfold submit submitTry
    rw [hq, hE]
    simp [hA, hI, hG, hv, hStale]
  have hmsg := staleDimensionMessage_names_dimension env.staleAfterEncrypt hStale
  rw [key]
  refine ⟨rfl, ?_, ?_, rfl, rfl, hmsg⟩
  · intro i h p
    simp
  · obtain ⟨qs, ct, r, d, sub, m⟩ := s
    rfl

/-- C1 (witness): address change discovered after encryption on a
concrete fresh state. -/
theorem submit_stale_abort_after_encrypt_witness :
    (submit ctxAll envAddrChanged initialState 0 5).trace = [Event.encryptCall] ∧
    (∀ i h p, Event.ledgerWrite i h p ∉ (submit ctxAll envAddrChanged initialState 0 5).trace) ∧
    (submit ctxAll envAddrChanged initialState 0 5).state.questions
      = initialState.questions ∧
    (submit ctxAll envAddrChanged initialState 0 5).thrown = none ∧
    (submit ctxAll envAddrChanged initialState 0 5).state.message
      = staleDimensionMessage envAddrChanged.staleAfterEncrypt ∧
    ((submit ctxAll envAddrChanged initialState 0 5).state.message
        = "Transaction cancelled: contract address changed" ∨
      (submit ctxAll envAddrChanged initialState 0 5).state.message
        = "Transaction cancelled: chain changed" ∨
      (submit ctxAll envAddrChanged initialState 0 5).state.message
        = "Transaction cancelled: signer changed") :=
  submit_stale_abort_after_encrypt ctxAll envAddrChanged initialState 0 5
    ⟨0, "What is your ID number?", none, none⟩ ⟨[.str "0xab"], .str "0xcd"⟩
    rfl rfl rfl (by norm_num) rfl rfl rfl

/-- C5: a non-integer, negative, or over-`uint32` value is rejected before
any encryption-service or ledger call, with only the validation message
set and no lock taken; the boundary values `0` and `4294967295` proceed
past validation to the encryption-service call. -/
theorem submit_validation_boundary
    (ctx : Ctx) (env : SubmitEnv) (s : SurveyState) (questionId : Nat) (value : ℚ)
    (hR : s.isRefreshing = false) (hS : s.isSubmitting = false)
    (hP : (ctx.hasAddress && ctx.hasInstance && ctx.hasSigner) = true) :
    ((value.den ≠ 1 ∨ value < 0 ∨ value > 4294967295) →
      submit ctx env s questionId value =
        ⟨none, { s with message := "Please enter a valid number (0-4294967295)" }, []⟩) ∧
    (∀ q, s.questions.get? questionId = some q →
      Event.encryptCall ∈ (submit ctx env s questionId 0).trace ∧
      Event.encryptCall ∈ (submit ctx env s questionId 4294967295).trace) := by
  obtain ⟨⟨hA, hI⟩, hG⟩ : (ctx.hasAddress = true ∧ ctx.hasInstance = true) ∧
      ctx.hasSigner = true := by simpa [Bool.and_eq_true] using hP
  constructor
  · intro hbad
    unfold submit
    rw [if_neg (by simp [hR, hS]), if_neg (by simp [hA, hI, hG]), if_pos hbad]
  · intro q hq
    have run : ∀ v : ℚ, ¬(v.den ≠ 1 ∨ v < 0 ∨ v > 4294967295) →
        Event.encryptCall ∈ (submit ctx env s questionId v).trace := by
      intro v hv
      unfold submit
      rw [if_neg (by simp [hR, hS]), if_neg (by simp [hA, hI, hG]), if_neg hv, hq]
      dsimp only
      rcases hOut : (submitTry ctx env
          { s with isSubmitting := true,
                   message := ("Starting to submit question " ++
                     toString (questionId + 1) ++ ": " ++ q.question ++ "...") }
          questionId v q.question).err with _ | e <;> simp only [hOut]
      · exact submitTry_encryptCall_mem ctx env _ questionId v q.question hI
      · exact List.mem_append_left _
          (submitTry_encryptCall_mem ctx env _ questionId v q.question hI)
    exact ⟨run 0 (by norm_num), run 4294967295 (by norm_num)⟩

/-- C5 (witness): `submit(0, -1)` is rejected with only the validation
message; `submit(0, 0)` and `submit(0, 4294967295)` reach the
encryption-service call. -/
theorem submit_validation_boundary_witness :
    submit ctxAll envAllOk initialState 0 (-1)
      = ⟨none,
         { initialState with message := "Please enter a valid number (0-4294967295)" },
         []⟩ ∧
    Event.encryptCall ∈ (submit ctxAll envAllOk initialState 0 0).trace ∧
    Event.encryptCall ∈ (submit ctxAll envAllOk initialState 0 4294967295).trace := by
  refine ⟨?_, ?_, ?_⟩
  · exact (submit_validation_boundary ctxAll envAllOk initialState 0 (-1)
      rfl rfl rfl).1 (Or.inr (Or.inl (by norm_num)))
  · exact ((submit_validation_boundary ctxAll envAllOk initialState 0 0
      rfl rfl rfl).2 initialState.questions.q0 rfl).1
  · exact ((submit_validation_boundary ctxAll envAllOk initialState 0 0
      rfl rfl rfl).2 initialState.questions.q0 rfl).2

/-- C6: each operation lock is a two-state machine: from Idle
(`flag = false`) any single invocation — success, caught failure, or
staleness abort, over every possible environment — returns with the lock
free again, and a re-entrant invocation while InFlight (`flag = true`) is
a silent no-op that changes nothing and queues nothing. -/
theorem lock_state_machine
    (ctx : Ctx) (envR : RefreshEnv) (envS : SubmitEnv) (envD : DecryptEnv)
    (s : SurveyState) (questionId : Nat) (value : ℚ) :
    (s.isRefreshing = false → (refreshTallies ctx envR s).1.isRefreshing = false) ∧
    (s.isRefreshing = true → refreshTallies ctx envR s = (s, [])) ∧
    (s.isSubmitting = false →
      (submit ctx envS s questionId value).state.isSubmitting = false) ∧
    (s.isSubmitting = true → submit ctx envS s questionId value = ⟨none, s, []⟩) ∧
    (s.isDecrypting = false → (decryptTallies ctx envD s).1.isDecrypting = false) ∧
    (s.isDecrypting = true → decryptTallies ctx envD s = (s, [])) := by
  refine ⟨?_, ?_, ?_, ?_, ?_, ?_⟩
  · intro h
    unfold refreshTallies
    split
    · exact h
    · split
      · exact h
      · split <;> rfl
  · intro h
    unfold refreshTallies
    rw [if_pos h]
  · intro h
    unfold submit
    split
    · exact h
    · split
      · exact h
      · split
        · exact h
        · split
          · exact h
          · rfl
  · intro h
    unfold submit
    rw [if_pos (by simp [h])]
  · intro h
    unfold decryptTallies
    split
    · exact h
    · split
      · exact h
      · split
        · exact h
        · rfl
  · intro h
    unfold decryptTallies
    rw [if_pos (by simp [h])]

/-- C6 (witness): concrete instances of every conjunct — a completed
refresh, submit and decrypt leave their locks free, and re-entrant calls
while in flight are exact no-ops. -/
theorem lock_state_machine_witness :
    (refreshTallies ctxAll zeroRefreshEnv initialState).1.isRefreshing = false ∧
    refreshTallies ctxAll zeroRefreshEnv { initialState with isRefreshing := true }
      = ({ initialState with isRefreshing := true }, []) ∧
    (submit ctxAll envAllOk initialState 0 7).state.isSubmitting = false ∧
    submit ctxAll envAllOk { initialState with isSubmitting := true } 0 7
      = ⟨none, { initialState with isSubmitting := true }, []⟩ ∧
    (decryptTallies ctxAll envSigThrows initialState).1.isDecrypting = false ∧
    decryptTallies ctxAll envSigThrows { initialState with isDecrypting := true }
      = ({ initialState with isDecrypting := true }, []) := by
  refine ⟨?_, ?_, ?_, ?_, ?_, ?_⟩
  · exact (lock_state_machine ctxAll zeroRefreshEnv envAllOk envSigThrows
      initialState 0 7).1 rfl
  · exact (lock_state_machine ctxAll zeroRefreshEnv envAllOk envSigThrows
      { initialState with isRefreshing := true } 0 7).2.1 rfl
  · exact (lock_state_machine ctxAll zeroRefreshEnv envAllOk envSigThrows
      initialState 0 7).2.2.1 rfl
  · exact (lock_state_machine ctxAll zeroRefreshEnv envAllOk envSigThrows
      { initialState with isSubmitting := true } 0 7).2.2.2.1 rfl
  · exact (lock_state_machine ctxAll zeroRefreshEnv envAllOk envSigThrows
      initialState 0 7).2.2.2.2.1 rfl
  · exact (lock_state_machine ctxAll zeroRefreshEnv envAllOk envSigThrows
      { initialState with isDecrypting := true } 0 7).2.2.2.2.2 rfl

/-- C7: a refresh whose ledger read fails returns the state exactly as it
was (no handle cleared or set); a refresh whose read succeeds overwrites
all three handle fields in one atomic `setQuestions` transition with
exactly the reported values (zero sentinel included) — the trace contains
exactly one question-state replacement. -/
theorem refresh_atomic_or_untouched
    (ctx : Ctx) (env : RefreshEnv) (s : SurveyState)
    (hR : s.isRefreshing = false)
    (hP : (ctx.hasAddress && ctx.hasProvider && ctx.hasSigner) = true) :
    (∀ e, env.getMyAnswers = .error e →
      refreshTallies ctx env s = (s, [Event.ledgerRead])) ∧
    (∀ h0 h1 h2, env.getMyAnswers = .ok (h0, h1, h2) →
      refreshTallies ctx env s
        = ({ s with questions :=
              ⟨{ s.questions.q0 with handle := some h0 },
               { s.questions.q1 with handle := some h1 },
               { s.questions.q2 with handle := some h2 }⟩ },
           [Event.ledgerRead, Event.questionsSet]) ∧
      (refreshTallies ctx env s).2.count Event.questionsSet = 1) := by
  obtain ⟨qs, ct, r, d, sub, m⟩ := s
  dsimp only at hR
  subst hR
  constructor
  · intro e he
    unfold refreshTallies
    rw [if_neg (by simp), if_neg (by simp [hP]), he]
  · intro h0 h1 h2 hok
    unfold refreshTallies
    rw [if_neg (by simp), if_neg (by simp [hP]), hok]
    exact ⟨rfl, rfl⟩

/-- C7 (witness): a failed read leaves the fresh state untouched; a
successful read atomically installs the three reported handles. -/
theorem refresh_atomic_or_untouched_witness :
    refreshTallies ctxAll ⟨.error "network down"⟩ initialState
      = (initialState, [Event.ledgerRead]) ∧
    refreshTallies ctxAll zeroRefreshEnv initialState
      = ({ initialState with questions :=
            ⟨{ initialState.questions.q0 with handle := some zeroHandle },
             { initialState.questions.q1 with handle := some zeroHandle },
             { initialState.questions.q2 with handle := some zeroHandle }⟩ },
         [Event.ledgerRead, Event.questionsSet]) ∧
    (refreshTallies ctxAll zeroRefreshEnv initialState).2.count Event.questionsSet
      = 1 := by
  refine ⟨?_, ?_, ?_⟩
  · exact (refresh_atomic_or_untouched ctxAll ⟨.error "network down"⟩
      initialState rfl rfl).1 "network down" rfl
  · exact ((refresh_atomic_or_untouched ctxAll zeroRefreshEnv
      initialState rfl rfl).2 zeroHandle zeroHandle zeroHandle rfl).1
  · exact ((refresh_atomic_or_untouched ctxAll zeroRefreshEnv
      initialState rfl rfl).2 zeroHandle zeroHandle zeroHandle rfl).2

/-- Helper: indexing the three-question array out of range yields
`undefined`. -/
theorem questions_get?_of_ge_three (qs : Questions) (i : Nat) (h : 3 ≤ i) :
    qs.get? i = none := by
  cases i with
  | zero => omega
  | succ i1 => cases i1 with
    | zero => omega
    | succ i2 => cases i2 with
      | zero => omega
      | succ n => rfl

/-- C9 (counterexample): `submit(5, 1)` is not rejected with a validation
message — it throws a synchronous TypeError out of the call (the unchecked
`questions[questionId].question` access), contradicting both the
"surfaced validation message" and the "no unhandled exception" parts of
the claim. -/
theorem submit_unknown_ordinal_throws :
    (submit ctxAll envAllOk initialState 5 1).thrown
      = some "TypeError: cannot read property of undefined" ∧
    (submit ctxAll envAllOk initialState 5 1).state = initialState ∧
    (submit ctxAll envAllOk initialState 5 1).trace = [] := by
  exact ⟨rfl, rfl, rfl⟩

/-- C9 (amended): a call with an unknown question ordinal (≥ 3) that
passes the guards and value validation throws a synchronous TypeError
before any I/O, any lock acquisition and any state mutation — no
validation message is set; for the known ordinals 0, 1, 2 no invocation of
submit ever propagates an exception. -/
theorem submit_unknown_ordinal_amended
    (ctx : Ctx) (env : SubmitEnv) (s : SurveyState) (questionId : Nat) (value : ℚ) :
    (3 ≤ questionId → s.isRefreshing = false → s.isSubmitting = false →
      (ctx.hasAddress && ctx.hasInstance && ctx.hasSigner) = true →
      ¬(value.den ≠ 1 ∨ value < 0 ∨ value > 4294967295) →
      submit ctx env s questionId value
        = ⟨some "TypeError: cannot read property of undefined", s, []⟩) ∧
    (questionId < 3 → (submit ctx env s questionId value).thrown = none) := by
  constructor
  · intro h3 hR hS hP hv
    obtain ⟨⟨hA, hI⟩, hG⟩ : (ctx.hasAddress = true ∧ ctx.hasInstance = true) ∧
        ctx.hasSigner = true := by simpa [Bool.and_eq_true] using hP
    unfold submit
    rw [if_neg (by simp [hR, hS]), if_neg (by simp [hA, hI, hG]), if_neg hv,
      questions_get?_of_ge_three s.questions questionId h3]
  · intro h3
    have thrownNone : ∀ qd, s.questions.get? questionId = some qd →
        (submit ctx env s questionId value).thrown = none := by
      intro qd hqd
      unfold submit
      split
      · rfl
      · split
        · rfl
        · split
          · rfl
          · rw [hqd]
    interval_cases questionId
    · exact thrownNone s.questions.q0 rfl
    · exact thrownNone s.questions.q1 rfl
    · exact thrownNone s.questions.q2 rfl

/-- C9 (witness for the amended theorem). -/
theorem submit_unknown_ordinal_amended_witness :
    submit ctxAll envAllOk initialState 5 1
      = ⟨some "TypeError: cannot read property of undefined", initialState, []⟩ ∧
    (submit ctxAll envAllOk initialState 0 1).thrown = none := by
  constructor
  · exact (submit_unknown_ordinal_amended ctxAll envAllOk initialState 5 1).1
      (by norm_num) rfl rfl rfl (by norm_num)
  · exact (submit_unknown_ordinal_amended ctxAll envAllOk initialState 0 1).2
      (by norm_num)

/-- C10: at construction every handle is `undefined` (`none`); after any
successful refresh every handle is a defined string taken verbatim from
the ledger — for an unanswered question the truthy all-zero hex string —
so the interface carries two distinct representations of "no submission
yet", and the presence checks (`canDecrypt` and the decrypt guard) treat
the post-refresh zero sentinel as a set handle. -/
theorem unset_handle_two_representations
    (ctx : Ctx) (env : RefreshEnv) (s : SurveyState) (h0 h1 h2 : String)
    (hR : s.isRefreshing = false)
    (hP : (ctx.hasAddress && ctx.hasProvider && ctx.hasSigner) = true)
    (hOk : env.getMyAnswers = .ok (h0, h1, h2)) :
    (initialState.questions.q0.handle = none ∧
     initialState.questions.q1.handle = none ∧
     initialState.questions.q2.handle = none) ∧
    ((refreshTallies ctx env s).1.questions.q0.handle = some h0 ∧
     (refreshTallies ctx env s).1.questions.q1.handle = some h1 ∧
     (refreshTallies ctx env s).1.questions.q2.handle = some h2) ∧
    handleTruthy none = false ∧
    handleTruthy (some zeroHandle) = true ∧
    canDecrypt ctxAll zeroHandleState = true := by
  obtain ⟨qs, ct, r, d, sub, m⟩ := s
  dsimp only at hR
  subst hR
  refine ⟨⟨rfl, rfl, rfl⟩, ?_, rfl, by decide, by decide⟩
  unfold refreshTallies
  rw [if_neg (by simp), if_neg (by simp [hP]), hOk]
  exact ⟨rfl, rfl, rfl⟩

/-- C10 (witness): a fresh account's first refresh turns every
`undefined` handle into the truthy all-zero sentinel string. -/
theorem unset_handle_two_representations_witness :
    (initialState.questions.q0.handle = none ∧
     initialState.questions.q1.handle = none ∧
     initialState.questions.q2.handle = none) ∧
    ((refreshTallies ctxAll zeroRefreshEnv initialState).1.questions.q0.handle
        = some zeroHandle ∧
     (refreshTallies ctxAll zeroRefreshEnv initialState).1.questions.q1.handle
        = some zeroHandle ∧
     (refreshTallies ctxAll zeroRefreshEnv initialState).1.questions.q2.handle
        = some zeroHandle) ∧
    handleTruthy none = false ∧
    handleTruthy (some zeroHandle) = true ∧
    canDecrypt ctxAll zeroHandleState = true :=
  unset_handle_two_representations ctxAll zeroRefreshEnv initialState
    zeroHandle zeroHandle zeroHandle rfl rfl rfl

end EncryptedSurvey
